import Mathlib

/-!
Verification development for the multi-layer air-defense doctrine service
(`doctrine_service_multilayer.py`).

Shallow embedding conventions:
* Python `int` fields are modelled as `Int`; Python `float` fields as `Rat`
  (exact rational arithmetic as the idealisation of IEEE floats — every fact
  proved below is robust to float rounding at the concrete inputs used).
* Python `//` (floor division) is `Int.fdiv`; Python `int(x)` on a float
  (truncation toward zero) is `pyIntTrunc`.
* Python exceptions (`ZeroDivisionError`, `IndexError`, `KeyError` from
  `str.format`) are modelled with `Except PyError`.
* Enum members carry their `.value` strings exactly as they appear in the
  source file (the source is UTF-8 text with non-ASCII display names; the
  byte sequences are copied verbatim).
-/

namespace Doctrine

/-- Python exceptions that the embedded code can raise. -/
inductive PyError where
  | zeroDivisionError
  | indexError
  | keyError (k : String)
deriving DecidableEq, Repr

/-- The `ThreatType` enum from the source. -/
inductive ThreatType where
  | SHAHED_136
  | SHAHED_131
  | GERAN_2
  | LANCET
  | FPV
  | ORLAN
  | UNKNOWN
deriving DecidableEq, Repr

/-- The `.value` strings of `ThreatType`, copied from the source. -/
def threatTypeValue : ThreatType → String
  | .SHAHED_136 => "Shahed-136"
  | .SHAHED_131 => "Shahed-131"
  | .GERAN_2 => "Geran-2"
  | .LANCET => "Lancet"
  | .FPV => "FPV –¥—Ä–æ–Ω"
  | .ORLAN => "Orlan-10"
  | .UNKNOWN => "–ù–µ–≤—ñ–¥–æ–º–æ"

/-- The `SystemType` enum from the source. -/
inductive SystemType where
  | PATRIOT
  | IRIS_T
  | BUK_M1
  | STINGER
  | IGLA
  | INTERCEPTOR_DRONE
  | MOBILE_GROUP
  | HELICOPTER
  | ZU_23
  | BUKOVEL
deriving DecidableEq, Repr

/-- The `.value` strings of `SystemType`, copied from the source.  Note that the
member named `INTERCEPTOR_DRONE` has the display value
`"Vampire Interceptor Drone"` and `BUKOVEL` a Cyrillic display value — the
member *name* is never equal to the member *value* for any member. -/
def systemTypeValue : SystemType → String
  | .PATRIOT => "Patriot"
  | .IRIS_T => "IRIS-T"
  | .BUK_M1 => "Buk-M1"
  | .STINGER => "Stinger"
  | .IGLA => "Igla"
  | .INTERCEPTOR_DRONE => "Vampire Interceptor Drone"
  | .MOBILE_GROUP => "Mobile Firing Group (–ó–£-23-2)"
  | .HELICOPTER => "Mi-8 Helicopter System"
  | .ZU_23 => "–ó–£-23-2"
  | .BUKOVEL => "–†–ï–ë –ë—É–∫–æ–≤–µ–ª—å"

/-- The `TargetPriority` enum from the source. -/
inductive TargetPriority where
  | CRITICAL
  | HIGH
  | MEDIUM
  | LOW
deriving DecidableEq, Repr

/-- The `ThreatInput` dataclass (after `__post_init__` has run, so
`time_to_impact_minutes` is always set). -/
structure ThreatInput where
  threat_type : ThreatType
  count : Int
  range_km : Rat
  bearing : Int
  altitude_m : Int
  speed_kmh : Rat
  target_description : String
  target_priority : TargetPriority
  time_to_impact_minutes : Rat
deriving DecidableEq, Repr

/-- Construction `ThreatInput(...)` including `__post_init__`:
when `time_to_impact_minutes` is not supplied it is derived as
`(range_km / speed_kmh) * 60`, and a zero `speed_kmh` makes the Python
division raise `ZeroDivisionError` (there is no guard in the source). -/
def mkThreatInput (tt : ThreatType) (count : Int) (range_km : Rat)
    (bearing : Int) (altitude_m : Int) (speed_kmh : Rat)
    (target_description : String) (tp : TargetPriority)
    (tti : Option Rat := none) : Except PyError ThreatInput :=
  match tti with
  | some v =>
      .ok ⟨tt, count, range_km, bearing, altitude_m, speed_kmh,
           target_description, tp, v⟩
  | none =>
      if speed_kmh = 0 then .error .zeroDivisionError
      else
        .ok ⟨tt, count, range_km, bearing, altitude_m, speed_kmh,
             target_description, tp, range_km / speed_kmh * 60⟩

/-- The `AvailableSystem` dataclass. -/
structure AvailableSystem where
  system_type : SystemType
  count : Int
  missiles_available : Int
  cost_per_shot : Int
  effective_range_km : Rat
  success_rate : Rat
  reload_time_minutes : Int
  status : String := "READY"
  setup_time_minutes : Int := 0
  weather_dependent : Bool := false
  requires_visual : Bool := false
deriving DecidableEq, Repr

/-- The `OperationalConstraints` dataclass. -/
structure OperationalConstraints where
  limited_ammunition : Bool := true
  friendly_forces_nearby : Bool := false
  civilian_areas_nearby : Bool := false
  weather_conditions : String := "Nominal"
  expected_follow_on_waves : Int := 0
  resupply_time_hours : Int := 24
deriving DecidableEq, Repr

/-- One entry of `SYSTEM_SPECS`.  Keys that no code path ever reads
(`launch_time_min`, `setup_time_min`, `requires_acoustic`, `loiter_time_min`,
`weather_dependent`, `requires_visual`) are omitted from the embedding. -/
structure SpecEntry where
  cost : Int
  range_km : Rat
  pk_base : Rat
  optimal_range_km : Rat
deriving DecidableEq, Repr

/-- The `SYSTEM_SPECS` table.  `ZU_23` and `BUKOVEL` have no entry. -/
def SYSTEM_SPECS : SystemType → Option SpecEntry
  | .PATRIOT => some ⟨3000000, 160, 95/100, 80⟩
  | .IRIS_T => some ⟨500000, 40, 93/100, 25⟩
  | .BUK_M1 => some ⟨100000, 35, 85/100, 20⟩
  | .STINGER => some ⟨38000, 48/10, 70/100, 3⟩
  | .IGLA => some ⟨25000, 5, 65/100, 7/2⟩
  | .INTERCEPTOR_DRONE => some ⟨5000, 20, 60/100, 15⟩
  | .MOBILE_GROUP => some ⟨500, 5/2, 35/100, 2⟩
  | .HELICOPTER => some ⟨2000, 10, 50/100, 8⟩
  | .ZU_23 => none
  | .BUKOVEL => none

/-- The `range_km > optimal_range` branch of the range factor:
`max(0.6, 1.0 - (range_km - optimal_range) / (optimal_range * 2))`. -/
def range_factor_beyond (range_km optimal_range : Rat) : Rat :=
  max (6/10) (1 - (range_km - optimal_range) / (optimal_range * 2))

/-- The `range_km <= optimal_range` branch of the range factor:
`min(1.0, 0.85 + (optimal_range - range_km) / optimal_range * 0.15)`. -/
def range_factor_within (range_km optimal_range : Rat) : Rat :=
  min 1 (85/100 + (optimal_range - range_km) / optimal_range * (15/100))

/-- Weather degradation: 0.3 for the helicopter system under the three
adverse weather labels, 1.0 otherwise. -/
def weather_factor (st : SystemType) (weather : String) : Rat :=
  if st = SystemType.HELICOPTER ∧
      (weather = "Heavy clouds" ∨ weather = "Rain" ∨ weather = "Fog")
  then 3/10 else 1

/-- Function `BatteryDoctrine.calculate_success_rate`.  The `threat_type` argument is
accepted but never read, exactly as in the source. -/
def calculate_success_rate (st : SystemType) (range_km : Rat)
    (_tt : ThreatType) (weather : String := "Nominal") : Rat :=
  match SYSTEM_SPECS st with
  | none => 3/4
  | some specs =>
      let range_factor :=
        if range_km > specs.optimal_range_km then
          range_factor_beyond range_km specs.optimal_range_km
        else
          range_factor_within range_km specs.optimal_range_km
      specs.pk_base * range_factor * weather_factor st weather

/-!  Stable sorting, mirroring Python's `sorted` (Timsort is stable; with
`reverse=True` elements with equal keys keep their original relative order
while keys descend).  Insertion from the right via `foldr` reproduces this. -/

/-- Insert `a` into an ascending-sorted list, before the first element whose
key is `≥ key a` (stability: earlier-in-input wins ties). -/
def insertAsc (key : AvailableSystem → Int) (a : AvailableSystem) :
    List AvailableSystem → List AvailableSystem
  | [] => [a]
  | b :: l => if key a ≤ key b then a :: b :: l else b :: insertAsc key a l

/-- Python `sorted(l, key=key)` (stable, ascending). -/
def sortAsc (key : AvailableSystem → Int) (l : List AvailableSystem) :
    List AvailableSystem :=
  l.foldr (insertAsc key) []

/-- Insert `a` into a descending-sorted list, before the first element whose
key is `≤ key a` (stability: earlier-in-input wins ties). -/
def insertDesc (key : AvailableSystem → Int) (a : AvailableSystem) :
    List AvailableSystem → List AvailableSystem
  | [] => [a]
  | b :: l => if key a ≥ key b then a :: b :: l else b :: insertDesc key a l

/-- Python `sorted(l, key=key, reverse=True)` (stable, descending). -/
def sortDesc (key : AvailableSystem → Int) (l : List AvailableSystem) :
    List AvailableSystem :=
  l.foldr (insertDesc key) []

/-- Source line `premium = sorted([s for s in systems if s.cost_per_shot >= 400_000],
key=cost_per_shot, reverse=True)`. -/
def premiumOf (systems : List AvailableSystem) : List AvailableSystem :=
  sortDesc (·.cost_per_shot) (systems.filter (fun s => s.cost_per_shot ≥ 400000))

/-- Source line `moderate = sorted([s for s in systems if 30_000 <= s.cost_per_shot <
400_000], key=cost_per_shot, reverse=True)`. -/
def moderateOf (systems : List AvailableSystem) : List AvailableSystem :=
  sortDesc (·.cost_per_shot)
    (systems.filter (fun s => 30000 ≤ s.cost_per_shot ∧ s.cost_per_shot < 400000))

/-- Source line `economical = sorted([s for s in systems if s.cost_per_shot < 30_000],
key=cost_per_shot)`. -/
def economicalOf (systems : List AvailableSystem) : List AvailableSystem :=
  sortAsc (·.cost_per_shot) (systems.filter (fun s => s.cost_per_shot < 30000))

/-- Source line `drones = [s for s in economical if s.system_type == INTERCEPTOR_DRONE]`. -/
def dronesOf (systems : List AvailableSystem) : List AvailableSystem :=
  (economicalOf systems).filter (fun s => s.system_type = SystemType.INTERCEPTOR_DRONE)

/-- Source line `mobile_groups = [s for s in economical if s.system_type == MOBILE_GROUP]`. -/
def mobileGroupsOf (systems : List AvailableSystem) : List AvailableSystem :=
  (economicalOf systems).filter (fun s => s.system_type = SystemType.MOBILE_GROUP)

/-- Source line `helicopters = [s for s in economical if s.system_type == HELICOPTER]`. -/
def helicoptersOf (systems : List AvailableSystem) : List AvailableSystem :=
  (economicalOf systems).filter (fun s => s.system_type = SystemType.HELICOPTER)

/-- The `system_summary` dict built at the top of `generate_options`. -/
structure SystemSummary where
  premium_missiles : Int
  moderate_missiles : Int
  economical_units : Int
  total_missiles : Int
  system_types : List SystemType
  systems : List AvailableSystem

/-- Build the `system_summary` dict.  (`system_types` models
`list(set(...))`; Python's set iteration order is unspecified, but this
field is never read by any trigger or calculator, so a deduplication in
first-occurrence order is a sound stand-in.) -/
def makeSummary (systems : List AvailableSystem) : SystemSummary where
  premium_missiles :=
    ((systems.filter (fun s => s.cost_per_shot ≥ 400000)).map
      (·.missiles_available)).sum
  moderate_missiles :=
    ((systems.filter (fun s => 30000 ≤ s.cost_per_shot ∧ s.cost_per_shot < 400000)).map
      (·.missiles_available)).sum
  economical_units :=
    ((systems.filter (fun s => s.cost_per_shot < 30000)).map
      (·.missiles_available)).sum
  total_missiles := (systems.map (·.missiles_available)).sum
  system_types := (systems.map (·.system_type)).dedup
  systems := systems

/-- The insertion order of the `TEMPLATES` dict (Python dicts iterate in
insertion order). -/
def templateOrder : List String :=
  ["priority_1_immediate", "priority_2_drone_first", "priority_3_multi_layer",
   "priority_4_minimal", "ew_plus_kinetic_fpv", "coordination_with_brigade"]

/-- The `title` entries of the `TEMPLATES` dict (shortened transliterations
of the Ukrainian titles; only their identity matters to any claim). -/
def templateTitle (tid : String) : String := "TEMPLATE " ++ tid

/-- The `trigger` lambdas of the `TEMPLATES` dict.  Note the source compares
the *strings* `"INTERCEPTOR_DRONE"` and `"BUKOVEL"` against the
`.value` display strings of the systems present. -/
def trigger (tid : String) (t : ThreatInput) (s : SystemSummary)
    (c : OperationalConstraints) : Bool :=
  if tid = "priority_1_immediate" then
    t.target_priority = TargetPriority.CRITICAL
  else if tid = "priority_2_drone_first" then
    t.target_priority = TargetPriority.HIGH ∧ t.range_km > 15 ∧
      (s.systems.map (fun sys => systemTypeValue sys.system_type)).contains
        "INTERCEPTOR_DRONE"
  else if tid = "priority_3_multi_layer" then
    (t.target_priority = TargetPriority.MEDIUM ∨
     t.target_priority = TargetPriority.HIGH) ∧
      (s.systems.filter (fun sys => sys.cost_per_shot < 50000)).length ≥ 2
  else if tid = "priority_4_minimal" then
    t.target_priority = TargetPriority.LOW
  else if tid = "ew_plus_kinetic_fpv" then
    (s.systems.map (fun sys => systemTypeValue sys.system_type)).contains
      "BUKOVEL" ∧
      (t.threat_type = ThreatType.FPV ∨ t.threat_type = ThreatType.LANCET)
  else if tid = "coordination_with_brigade" then
    s.total_missiles < t.count * 2 ∨ c.expected_follow_on_waves > 1
  else
    false

/-- Values that the calculators place into a parameter dict. -/
inductive PValue where
  | i (z : Int)
  | q (x : Rat)
  | s (v : String)
  | ls (v : List String)
deriving DecidableEq, Repr

/-- A calculator's parameter set: the `Dict` returned by
`_calculate_parameters`, as an ordered association list. -/
abbrev Params := List (String × PValue)

/-- Lookup `params[k]` / `params.get(k)`. -/
def paramLookup (ps : Params) (k : String) : Option PValue :=
  (ps.find? (fun kv => kv.1 = k)).map (·.2)

/-- Python `int(x)` on a float: truncation toward zero. -/
def pyIntTrunc (x : Rat) : Int := if 0 ≤ x then ⌊x⌋ else -⌊-x⌋

/-- Python `math.floor` / `round`-helper: `⌊x⌋` for a rational. -/
def ratFloor (x : Rat) : Int := ⌊x⌋

/-- The `priority_1_immediate` branch of `_calculate_parameters`. -/
def calcP1 (threat : ThreatInput) (systems : List AvailableSystem) :
    Except PyError (Option Params) :=
  match premiumOf systems with
    | [] => .ok none
    | primary :: _ =>
      let missiles_needed := min threat.count primary.missiles_available
      let success_rate :=
        calculate_success_rate primary.system_type threat.range_km threat.threat_type
      .ok (some [
        ("premium_system", .s (systemTypeValue primary.system_type)),
        ("missiles_allocated", .i missiles_needed),
        ("threat_count", .i threat.count),
        ("threat_type", .s (threatTypeValue threat.threat_type)),
        ("current_range", .q threat.range_km),
        ("time_to_launch", .i 2),
        ("target_description", .s threat.target_description),
        ("reserve_description", .s (toString (primary.missiles_available - missiles_needed)
            ++ "x " ++ systemTypeValue primary.system_type
            ++ ", –≤—Å—ñ —ñ–Ω—à—ñ —Å–∏—Å—Ç–µ–º–∏")),
        ("cost", .i (primary.cost_per_shot * missiles_needed)),
        ("success_rate", .i (pyIntTrunc (success_rate * 100))),
        ("systems_used", .ls [systemTypeValue primary.system_type])])
/-- The `priority_2_drone_first` branch of `_calculate_parameters`. -/
def calcP2 (threat : ThreatInput) (systems : List AvailableSystem) :
    Except PyError (Option Params) :=
  match dronesOf systems, moderateOf systems with
    | [], _ => .ok none
    | _, [] => .ok none
    | drone_sys :: _, missile_sys :: _ =>
      -- in the source `missile_sys = moderate[0] if moderate else ...`;
      -- the guard above makes `moderate` nonempty, so it is `moderate[0]`
      let drone_count := min (max 2 threat.count) drone_sys.missiles_available
      let missile_count :=
        min (max 2 (Int.fdiv threat.count 2)) missile_sys.missiles_available
      let drone_success := calculate_success_rate drone_sys.system_type
        (threat.range_km * (7/10)) threat.threat_type
      let missile_success := calculate_success_rate missile_sys.system_type
        (threat.range_km * (4/10)) threat.threat_type
      let combined := drone_success + (1 - drone_success) * missile_success
      let drone_cost := drone_sys.cost_per_shot * drone_count
      let missile_cost := missile_sys.cost_per_shot * missile_count
      .ok (some [
        ("drone_count", .i drone_count),
        ("drone_launch_time", .i 3),
        ("drone_cost", .i drone_cost),
        ("drone_success_rate", .i (pyIntTrunc (drone_success * 100))),
        ("missile_count", .i missile_count),
        ("missile_system", .s (systemTypeValue missile_sys.system_type)),
        ("missile_range", .i (pyIntTrunc (threat.range_km * (4/10)))),
        ("missile_cost", .i missile_cost),
        ("total_cost", .i (drone_cost + missile_cost)),
        ("combined_success_rate", .i (pyIntTrunc (combined * 100))),
        ("threat_count", .i threat.count),
        ("threat_type", .s (threatTypeValue threat.threat_type)),
        ("cost", .i (drone_cost + missile_cost)),
        ("success_rate", .i (pyIntTrunc (combined * 100))),
        ("systems_used", .ls [systemTypeValue drone_sys.system_type,
                              systemTypeValue missile_sys.system_type])])
/-- The `priority_3_multi_layer` branch of `_calculate_parameters`. -/
def calcP3 (threat : ThreatInput) (systems : List AvailableSystem) :
    Except PyError (Option Params) :=
  let layers := (economicalOf systems).take 1 ++ (moderateOf systems).take 1
      ++ (premiumOf systems).take 1
    let build : AvailableSystem → AvailableSystem → AvailableSystem →
        Except PyError (Option Params) := fun layer1 layer2 layer3 =>
      let range1 := threat.range_km * (5/10)
      let range2 := threat.range_km * (35/100)
      let range3 := threat.range_km * (2/10)
      let count1 := min (max 2 threat.count) layer1.missiles_available
      let count2 := min (max 1 (Int.fdiv threat.count 2)) layer2.missiles_available
      let count3 := min (max 1 (Int.fdiv threat.count 3)) layer3.missiles_available
      let success1 := calculate_success_rate layer1.system_type range1 threat.threat_type
      let success2 := calculate_success_rate layer2.system_type range2 threat.threat_type
      let success3 := calculate_success_rate layer3.system_type range3 threat.threat_type
      let cumulative := 1 - (1 - success1) * (1 - success2) * (1 - success3)
      let cost1 := layer1.cost_per_shot * count1
      let cost2 := layer2.cost_per_shot * count2
      let cost3 := layer3.cost_per_shot * count3
      .ok (some [
        ("range_1", .i (pyIntTrunc range1)),
        ("layer_1_system", .s (systemTypeValue layer1.system_type)),
        ("layer_1_count", .i count1),
        ("layer_1_cost", .i cost1),
        ("layer_1_success", .i (pyIntTrunc (success1 * 100))),
        ("range_2", .i (pyIntTrunc range2)),
        ("layer_2_system", .s (systemTypeValue layer2.system_type)),
        ("layer_2_count", .i count2),
        ("layer_2_cost", .i cost2),
        ("layer_2_success", .i (pyIntTrunc (success2 * 100))),
        ("range_3", .i (pyIntTrunc range3)),
        ("layer_3_system", .s (systemTypeValue layer3.system_type)),
        ("layer_3_count", .i count3),
        ("layer_3_cost", .i cost3),
        ("layer_3_success", .i (pyIntTrunc (success3 * 100))),
        ("min_cost", .i cost1),
        ("max_cost", .i (cost1 + cost2 + cost3)),
        ("cumulative_success", .i (pyIntTrunc (cumulative * 100))),
        ("cost", .i (cost1 + cost2)),
        ("success_rate", .i (pyIntTrunc (cumulative * 100))),
        ("systems_used", .ls [systemTypeValue layer1.system_type,
            systemTypeValue layer2.system_type, systemTypeValue layer3.system_type])])
    match layers with
    | [layer1, layer2] => build layer1 layer2 layer2
    | [layer1, layer2, layer3] => build layer1 layer2 layer3
    | _ => .ok none
/-- The `total_success` accumulation of the `priority_4_minimal` branch:
starts at `0.0`, becomes the mobile-group layer's probability when a mobile
group is present, then is OR-combined with the interceptor-drone layer's
probability when a drone is present. -/
def p4_total_success (threat : ThreatInput)
    (systems : List AvailableSystem) : Rat :=
  let s1 : Rat :=
    match mobileGroupsOf systems with
    | [] => 0
    | mobile_sys :: _ =>
      0 + calculate_success_rate mobile_sys.system_type 2 threat.threat_type
  match dronesOf systems with
  | [] => s1
  | drone_sys :: _ =>
    1 - (1 - s1) * (1 - calculate_success_rate drone_sys.system_type
      (threat.range_km * (6/10)) threat.threat_type)

/-- The `total_cost` accumulation of the `priority_4_minimal` branch. -/
def p4_total_cost (threat : ThreatInput)
    (systems : List AvailableSystem) : Int :=
  (match mobileGroupsOf systems with
   | [] => 0
   | mobile_sys :: _ =>
     mobile_sys.cost_per_shot * min threat.count mobile_sys.missiles_available) +
  (match dronesOf systems with
   | [] => 0
   | drone_sys :: _ =>
     drone_sys.cost_per_shot * min threat.count drone_sys.missiles_available)

/-- The `priority_4_minimal` branch of `_calculate_parameters`. -/
def calcP4 (threat : ThreatInput) (systems : List AvailableSystem)
    (constraints : OperationalConstraints) : Except PyError (Option Params) :=
  let mobile_groups := mobileGroupsOf systems
  let drones := dronesOf systems
  let helicopters := helicoptersOf systems
  let mobile_count : Int := mobile_groups.length
  let drone_count : Int := drones.length
  let heli_count : Int :=
    if constraints.weather_conditions = "Nominal" then helicopters.length else 0
  if mobile_count = 0 ∧ drone_count = 0 then .ok none
  else
    let total_cost := p4_total_cost threat systems
    let total_success := p4_total_success threat systems
    let acceptable_losses :=
      max 1 (pyIntTrunc ((threat.count : Rat) * (1 - total_success)))
    .ok (some [
        ("mobile_count", .i mobile_count),
        ("drone_count", .i drone_count),
        ("helicopter_count", .i heli_count),
        ("target_description", .s threat.target_description),
        ("follow_on_waves", .i constraints.expected_follow_on_waves),
        ("threat_count", .i threat.count),
        ("acceptable_losses", .i acceptable_losses),
        ("cost", .i total_cost),
        ("success_rate", .i (pyIntTrunc (total_success * 100))),
        ("systems_used", .ls (((mobile_groups ++ drones ++ helicopters).take 3).map
            (fun s => systemTypeValue s.system_type)))])
/-- The `ew_plus_kinetic_fpv` branch of `_calculate_parameters`. -/
def calcEw (threat : ThreatInput) (systems : List AvailableSystem) :
    Except PyError (Option Params) :=
  let kinetic? : Option AvailableSystem :=
      match moderateOf systems with
      | kinetic_sys :: _ => some kinetic_sys
      | [] =>
        match economicalOf systems with
        | kinetic_sys :: _ => some kinetic_sys
        | [] => none
    match kinetic? with
    | none => .ok none
    | some kinetic_sys =>
      let kinetic_count := max 2 (Int.fdiv threat.count 2)
      let ew_success : Rat := 3/4
      let kinetic_success := calculate_success_rate kinetic_sys.system_type
        (threat.range_km * (5/10)) threat.threat_type
      let combined := 1 - (1 - ew_success) * (1 - kinetic_success)
      let backup :=
        match economicalOf systems with
        | b :: _ => b
        | [] => kinetic_sys
      let kinetic_cost := kinetic_sys.cost_per_shot * kinetic_count
      .ok (some [
        ("threat_type", .s (threatTypeValue threat.threat_type)),
        ("ew_success_rate", .i (pyIntTrunc (ew_success * 100))),
        ("kinetic_count", .i kinetic_count),
        ("kinetic_system", .s (systemTypeValue kinetic_sys.system_type)),
        ("kinetic_cost", .i kinetic_cost),
        ("kinetic_success_rate", .i (pyIntTrunc (kinetic_success * 100))),
        ("backup_system", .s (systemTypeValue backup.system_type)),
        ("combined_success", .i (pyIntTrunc (combined * 100))),
        ("cost", .i kinetic_cost),
        ("success_rate", .i (pyIntTrunc (combined * 100))),
        ("systems_used", .ls ["–†–ï–ë –ë—É–∫–æ–≤–µ–ª—å",
                              systemTypeValue kinetic_sys.system_type])])
/-- The `coordination_with_brigade` branch of `_calculate_parameters`:
`minimal_sys = economical[0] if economical else moderate[0] if moderate else
premium[0]` — with all three categories empty, `premium[0]` raises
`IndexError` before the (unreachable) `if not minimal_sys` guard. -/
def calcCoord (threat : ThreatInput) (systems : List AvailableSystem)
    (constraints : OperationalConstraints) (summary : SystemSummary) :
    Except PyError (Option Params) :=
  let pick : Except PyError AvailableSystem :=
      match economicalOf systems with
      | minimal_sys :: _ => .ok minimal_sys
      | [] =>
        match moderateOf systems with
        | minimal_sys :: _ => .ok minimal_sys
        | [] =>
          match premiumOf systems with
          | minimal_sys :: _ => .ok minimal_sys
          | [] => .error .indexError
    match pick with
    | .error e => .error e
    | .ok minimal_sys =>
      .ok (some [
        ("my_allocation", .s ("1x " ++ systemTypeValue minimal_sys.system_type)),
        ("reserve_percent", .i 90),
        ("support_sources", .s "–°—É—Å—ñ–¥–Ω—ñ –±–∞—Ç–∞—Ä–µ—ó, –±—Ä–∏–≥–∞–¥–Ω–∏–π —Ä–µ–∑–µ—Ä–≤, –†–ï–ë –ø—ñ–¥—Ç—Ä–∏–º–∫–∞"),
        ("response_time", .i 3),
        ("expected_support", .s "–ö–æ–æ—Ä–¥–∏–Ω–æ–≤–∞–Ω–µ –≤–∏–∫–æ—Ä–∏—Å—Ç–∞–Ω–Ω—è —Ä–µ—Å—É—Ä—Å—ñ–≤ –ø–æ —Ä–µ–≥—ñ–æ–Ω—É"),
        ("follow_on_waves", .i constraints.expected_follow_on_waves),
        ("total_missiles", .i summary.total_missiles),
        ("threat_range", .q threat.range_km),
        ("cost", .i minimal_sys.cost_per_shot),
        ("success_rate", .i 70),
        ("systems_used", .ls ["–ö–æ–æ—Ä–¥–∏–Ω–∞—Ü—ñ—è"])])

/-- Function `BatteryDoctrine._calculate_parameters`: dispatch on the template id.
Returns `.ok none` where the source returns `None` (pattern declines),
`.ok (some ps)` for a parameter dict, and `.error` where the source raises. -/
def calcParams (tid : String) (threat : ThreatInput)
    (systems : List AvailableSystem) (constraints : OperationalConstraints)
    (summary : SystemSummary) : Except PyError (Option Params) :=
  if tid = "priority_1_immediate" then calcP1 threat systems
  else if tid = "priority_2_drone_first" then calcP2 threat systems
  else if tid = "priority_3_multi_layer" then calcP3 threat systems
  else if tid = "priority_4_minimal" then calcP4 threat systems constraints
  else if tid = "ew_plus_kinetic_fpv" then calcEw threat systems
  else if tid = "coordination_with_brigade" then
    calcCoord threat systems constraints summary
  else .ok none

/-- The `GeneratedOption` dataclass. -/
structure GeneratedOption where
  option_id : String
  title : String
  description : String
  template_id : String
  parameters : Params
  estimated_cost : Int
  estimated_success_rate : Rat
  systems_used : List String
deriving DecidableEq, Repr

/-- The placeholder keys appearing in each template's narrative text
(`str.format` raises `KeyError` when any of them is absent from the
parameter dict). -/
def requiredKeys (tid : String) : List String :=
  if tid = "priority_1_immediate" then
    ["premium_system", "missiles_allocated", "threat_count", "threat_type",
     "current_range", "time_to_launch", "reserve_description",
     "target_description", "success_rate", "cost"]
  else if tid = "priority_2_drone_first" then
    ["drone_count", "threat_count", "threat_type", "drone_launch_time",
     "drone_cost", "drone_success_rate", "missile_count", "missile_system",
     "missile_range", "missile_cost", "total_cost", "cost",
     "combined_success_rate"]
  else if tid = "priority_3_multi_layer" then
    ["range_1", "layer_1_system", "layer_1_count", "layer_1_cost",
     "layer_1_success", "range_2", "layer_2_system", "layer_2_count",
     "layer_2_cost", "layer_2_success", "range_3", "layer_3_system",
     "layer_3_count", "layer_3_cost", "layer_3_success", "min_cost", "cost",
     "max_cost", "cumulative_success"]
  else if tid = "priority_4_minimal" then
    ["mobile_count", "drone_count", "helicopter_count", "target_description",
     "follow_on_waves", "acceptable_losses", "threat_count", "cost",
     "success_rate"]
  else if tid = "ew_plus_kinetic_fpv" then
    ["threat_type", "ew_success_rate", "kinetic_count", "kinetic_system",
     "kinetic_cost", "kinetic_success_rate", "backup_system",
     "combined_success", "cost"]
  else if tid = "coordination_with_brigade" then
    ["my_allocation", "reserve_percent", "support_sources", "response_time",
     "expected_support", "follow_on_waves", "total_missiles", "threat_range",
     "cost", "success_rate"]
  else []

/-- First placeholder key missing from the parameter dict, if any
(the key a `KeyError` from `format` would name). -/
def missingKey (tid : String) (ps : Params) : Option String :=
  (requiredKeys tid).find? (fun k => !(ps.any (fun kv => kv.1 == k)))

/-- Text of one substituted value. -/
def pvalText : PValue → String
  | .i z => toString z
  | .q x => toString x
  | .s v => v
  | .ls v => String.intercalate ", " v

/-- Rendering `template.format(**params).strip()`.  The narrative layouts are large
fixed texts; rendering is modelled as a function of the template id and the
values at the template's placeholder keys, which determines the text — the
claims only ever compare rendered texts for identity. -/
def renderText (tid : String) (ps : Params) : String :=
  tid ++ String.join ((requiredKeys tid).map (fun k =>
    " " ++ (match paramLookup ps k with
            | some v => pvalText v
            | none => "")))

/-- Assemble one `GeneratedOption` (body of the `options.append(...)` call);
`tnow` stands for `int(time.time())`. -/
def mkOption (tid : String) (ps : Params) (tnow : Int) : GeneratedOption where
  option_id := "BATTERY_" ++ tid ++ "_" ++ toString tnow
  title := templateTitle tid
  description := renderText tid ps
  template_id := tid
  parameters := ps
  estimated_cost :=
    match paramLookup ps "cost" with
    | some (.i z) => z
    | _ => 0
  estimated_success_rate :=
    match paramLookup ps "success_rate" with
    | some (.i z) => (z : Rat)
    | some (.q x) => x
    | _ => 75
  systems_used :=
    match paramLookup ps "systems_used" with
    | some (.ls l) => l
    | _ => []

/-- The `for template_id, template_def in TEMPLATES.items()` loop of
`generate_options`, over a list of template ids, with the calculator as a
parameter (the source calls `BatteryDoctrine._calculate_parameters` here).
An exception anywhere in the loop aborts the whole call, discarding options
already appended. -/
def genLoop
    (calcFn : String → ThreatInput → List AvailableSystem →
      OperationalConstraints → SystemSummary → Except PyError (Option Params))
    (threat : ThreatInput) (systems : List AvailableSystem)
    (constraints : OperationalConstraints) (summary : SystemSummary)
    (tnow : Int) : List String → Except PyError (List GeneratedOption)
  | [] => .ok []
  | tid :: rest =>
    if trigger tid threat summary constraints then
      match calcFn tid threat systems constraints summary with
      | .error e => .error e
      | .ok none => genLoop calcFn threat systems constraints summary tnow rest
      | .ok (some ps) =>
        match missingKey tid ps with
        | some k => .error (.keyError k)
        | none =>
          match genLoop calcFn threat systems constraints summary tnow rest with
          | .error e => .error e
          | .ok opts => .ok (mkOption tid ps tnow :: opts)
    else genLoop calcFn threat systems constraints summary tnow rest

/-- Function `generate_options` with the calculator abstracted. -/
def generateOptionsWith
    (calcFn : String → ThreatInput → List AvailableSystem →
      OperationalConstraints → SystemSummary → Except PyError (Option Params))
    (threat : ThreatInput) (systems : List AvailableSystem)
    (constraints : OperationalConstraints) (tnow : Int) :
    Except PyError (List GeneratedOption) :=
  genLoop calcFn threat systems constraints (makeSummary systems) tnow templateOrder

/-- Function `BatteryDoctrine.generate_options` (with `int(time.time())` passed in as
the explicit argument `tnow`). -/
def generate_options (threat : ThreatInput) (systems : List AvailableSystem)
    (constraints : OperationalConstraints) (tnow : Int) :
    Except PyError (List GeneratedOption) :=
  generateOptionsWith calcParams threat systems constraints tnow

/-- Whether the returned batch contains an option of the given pattern
(`false` as well when the call raised). -/
def hasOpt (r : Except PyError (List GeneratedOption)) (tid : String) : Bool :=
  match r with
  | .ok l => l.any (fun o => o.template_id == tid)
  | .error _ => false

/-- The option of the given pattern in the returned batch, if any. -/
def getOpt (r : Except PyError (List GeneratedOption)) (tid : String) :
    Option GeneratedOption :=
  match r with
  | .ok l => l.find? (fun o => o.template_id == tid)
  | .error _ => none

/-- Observable fields of a batch for the determinism claim: narrative text,
cost and success-probability per option (everything except the
timestamp-bearing `option_id` and redundant copies). -/
def obsFields (r : Except PyError (List GeneratedOption)) :
    Except PyError (List (String × Int × Rat)) :=
  r.map (fun l => l.map (fun o =>
    (o.description, o.estimated_cost, o.estimated_success_rate)))

/-- A template step that cannot raise: when its trigger fires, the
calculator returns without raising, and any parameter set it returns
carries every key its template requires. -/
def stepOk
    (calcFn : String → ThreatInput → List AvailableSystem →
      OperationalConstraints → SystemSummary → Except PyError (Option Params))
    (threat : ThreatInput) (systems : List AvailableSystem)
    (constraints : OperationalConstraints) (summary : SystemSummary)
    (tid : String) : Prop :=
  trigger tid threat summary constraints = true →
    (∃ r, calcFn tid threat systems constraints summary = .ok r) ∧
    (∀ ps, calcFn tid threat systems constraints summary = .ok (some ps) →
      missingKey tid ps = none)

/-! ### Definitions modelled from claim wording, for refinement comparison -/

/-- Modelled from the claim wording of C9: rounding to the nearest integer
(halves upward). -/
def roundNearest (x : Rat) : Int := ratFloor (x + 1/2)

/-- Modelled from the claim wording of C9:
`max(1, round(threat_count × (1 - combined_probability)))`. -/
def acceptable_losses_claim (threat_count : Int) (combined : Rat) : Int :=
  max 1 (roundNearest ((threat_count : Rat) * (1 - combined)))

/-- Modelled from the claim wording of C9: the independent-OR combination of
the mobile-ground and interceptor-drone layers that are present (at the
engagement ranges the minimal pattern uses). -/
def p4_combined_spec (threat : ThreatInput)
    (systems : List AvailableSystem) : Rat :=
  match mobileGroupsOf systems, dronesOf systems with
  | [], [] => 0
  | mobile_sys :: _, [] =>
    calculate_success_rate mobile_sys.system_type 2 threat.threat_type
  | [], drone_sys :: _ =>
    calculate_success_rate drone_sys.system_type (threat.range_km * (6/10))
      threat.threat_type
  | mobile_sys :: _, drone_sys :: _ =>
    let pm := calculate_success_rate mobile_sys.system_type 2 threat.threat_type
    let pd := calculate_success_rate drone_sys.system_type
      (threat.range_km * (6/10)) threat.threat_type
    pm + (1 - pm) * pd

/-! ### Concrete scenarios used by witnesses and counterexamples -/

/-- The threat of the `validate_odesa_october_19` scenario in the source. -/
def odesaThreat : ThreatInput :=
  ⟨.SHAHED_136, 5, 25, 45, 1200, 185, "Port and power plant", .CRITICAL,
   25 / 185 * 60⟩

/-- The roster of the `validate_odesa_october_19` scenario in the source. -/
def odesaSystems : List AvailableSystem :=
  [⟨.IRIS_T, 2, 6, 500000, 40, 93/100, 720, "READY", 0, false, false⟩,
   ⟨.BUK_M1, 1, 3, 100000, 35, 85/100, 480, "READY", 0, false, false⟩,
   ⟨.STINGER, 4, 8, 40000, 5, 70/100, 120, "READY", 0, false, false⟩,
   ⟨.INTERCEPTOR_DRONE, 4, 4, 5000, 20, 60/100, 30, "READY", 0, false, false⟩,
   ⟨.MOBILE_GROUP, 2, 2, 500, 5/2, 35/100, 15, "READY", 15, false, false⟩,
   ⟨.HELICOPTER, 1, 1, 2000, 10, 50/100, 90, "READY", 0, true, false⟩]

/-- The constraints of the `validate_odesa_october_19` scenario. -/
def odesaCons : OperationalConstraints :=
  ⟨true, false, false, "Marginal", 2, 24⟩

/-- A high-priority long-range threat for the drone-first pattern. -/
def c4Threat : ThreatInput :=
  ⟨.SHAHED_136, 5, 20, 0, 1000, 185, "Rail depot", .HIGH, 1⟩

/-- A roster holding an interceptor drone and a moderate-tier missile. -/
def c4Systems : List AvailableSystem :=
  [⟨.INTERCEPTOR_DRONE, 4, 4, 5000, 20, 60/100, 30, "READY", 0, false, false⟩,
   ⟨.BUK_M1, 1, 3, 100000, 35, 85/100, 480, "READY", 0, false, false⟩]

/-- Nominal constraints, no follow-on waves. -/
def c4Cons : OperationalConstraints := ⟨true, false, false, "Nominal", 0, 24⟩

/-- An FPV threat, countermeasure-vulnerable per the catalog. -/
def c5Threat : ThreatInput :=
  ⟨.FPV, 3, 8, 0, 500, 120, "Forward trench", .MEDIUM, 4⟩

/-- A roster holding the Bukovel electronic-warfare asset and a kinetic
(Stinger) asset. -/
def c5Systems : List AvailableSystem :=
  [⟨.BUKOVEL, 1, 1, 0, 10, 75/100, 0, "READY", 0, false, false⟩,
   ⟨.STINGER, 4, 8, 38000, 48/10, 70/100, 120, "READY", 0, false, false⟩]

/-- Nominal constraints for the FPV scenario. -/
def c5Cons : OperationalConstraints := ⟨true, false, false, "Nominal", 0, 24⟩

/-- A single low-priority threat, used with an empty roster. -/
def c6Threat : ThreatInput :=
  ⟨.SHAHED_136, 1, 25, 0, 1000, 185, "Village", .LOW, 8⟩

/-- A low-priority threat wave of five. -/
def c6wThreat : ThreatInput :=
  ⟨.SHAHED_136, 5, 25, 0, 1000, 185, "Village", .LOW, 8⟩

/-- A roster with six rounds in total (fewer than `2 × 5`). -/
def c6wSystems : List AvailableSystem :=
  [⟨.IRIS_T, 2, 6, 500000, 40, 93/100, 720, "READY", 0, false, false⟩]

/-- Constraints with no follow-on waves. -/
def c6Cons : OperationalConstraints := ⟨true, false, false, "Nominal", 0, 24⟩

/-- A critical threat for which both the immediate-premium and the
coordination patterns qualify. -/
def c8Threat : ThreatInput :=
  ⟨.SHAHED_136, 5, 25, 45, 1200, 185, "Power plant", .CRITICAL, 8⟩

/-- A premium-only roster with six rounds (fewer than `2 × 5`). -/
def c8Systems : List AvailableSystem :=
  [⟨.IRIS_T, 2, 6, 500000, 40, 93/100, 720, "READY", 0, false, false⟩]

/-- Constraints with two expected follow-on waves. -/
def c8Cons : OperationalConstraints := ⟨true, false, false, "Nominal", 2, 24⟩

/-- A calculator variant instantiating the antecedent of C8: identical to
the source calculator except that its coordination branch returns a
parameter set missing every field the coordination narrative requires. -/
def faultyCalc (tid : String) (threat : ThreatInput)
    (systems : List AvailableSystem) (constraints : OperationalConstraints)
    (summary : SystemSummary) : Except PyError (Option Params) :=
  if tid = "coordination_with_brigade" then .ok (some [])
  else calcParams tid threat systems constraints summary

/-- The parameter set the source calculator produces for the
immediate-premium pattern in the C8 scenario. -/
def c8ps : Params :=
  match calcP1 c8Threat c8Systems with
  | .ok (some ps) => ps
  | _ => []

/-- A low-priority wave of five threats. -/
def c9Threat : ThreatInput :=
  ⟨.SHAHED_136, 5, 10, 0, 1000, 185, "Open field", .LOW, 1⟩

/-- A roster holding only a mobile firing group with six rounds. -/
def c9Systems : List AvailableSystem :=
  [⟨.MOBILE_GROUP, 2, 6, 500, 5/2, 35/100, 15, "READY", 15, false, false⟩]

/-- Nominal constraints for the minimal-pattern scenario. -/
def c9Cons : OperationalConstraints := ⟨true, false, false, "Nominal", 0, 24⟩

/-- The parameter set the source calculator produces for the minimal
pattern in the C9 scenario. -/
def c9ps : Params :=
  match calcP4 c9Threat c9Systems c9Cons with
  | .ok (some ps) => ps
  | _ => []

/-! ### Estimator lemmas -/

/-- The selected range factor always lies in `[0.6, 1]` (for a positive
optimal range). -/
lemma range_factor_bounds (r o : Rat) (ho : 0 < o) :
    6/10 ≤ (if r > o then range_factor_beyond r o else range_factor_within r o) ∧
    (if r > o then range_factor_beyond r o else range_factor_within r o) ≤ 1 := by
  by_cases h : r > o
  · rw [if_pos h]
    unfold range_factor_beyond
    refine ⟨le_max_left _ _, max_le (by norm_num) ?_⟩
    have hnn : 0 ≤ (r - o) / (o * 2) :=
      div_nonneg (by linarith) (by linarith)
    linarith
  · rw [if_neg h]
    push_neg at h
    unfold range_factor_within
    refine ⟨le_min (by norm_num) ?_, min_le_left _ _⟩
    have hnn : 0 ≤ (o - r) / o * (15/100) :=
      mul_nonneg (div_nonneg (by linarith) ho.le) (by norm_num)
    linarith

/-- The weather factor lies in `[0, 1]`. -/
lemma weather_factor_bounds (st : SystemType) (w : String) :
    0 ≤ weather_factor st w ∧ weather_factor st w ≤ 1 := by
  unfold weather_factor
  split <;> norm_num

/-- Under the label `"Nominal"` no weather degradation applies. -/
lemma weather_factor_nominal (st : SystemType) :
    weather_factor st "Nominal" = 1 := by
  unfold weather_factor
  rw [if_neg]
  rintro ⟨-, h | h | h⟩ <;> simp_all

/-- A product of three factors each in `[0, 1]` stays in `[0, 1]`. -/
lemma prod3_bounds {pk rf wf : Rat} (hpk0 : 0 ≤ pk) (hpk1 : pk ≤ 1)
    (hrf0 : 0 ≤ rf) (hrf1 : rf ≤ 1) (hwf0 : 0 ≤ wf) (hwf1 : wf ≤ 1) :
    0 ≤ pk * rf * wf ∧ pk * rf * wf ≤ 1 := by
  constructor
  · exact mul_nonneg (mul_nonneg hpk0 hrf0) hwf0
  · have h1 : pk * rf ≤ 1 := mul_le_one hpk1 hrf0 hrf1
    exact mul_le_one h1 hwf0 hwf1

/-- Bounds for the estimator on a tabulated class. -/
lemma calc_bounds_of_spec (st : SystemType) (sp : SpecEntry)
    (h : SYSTEM_SPECS st = some sp) (ho : 0 < sp.optimal_range_km)
    (hpk0 : 0 ≤ sp.pk_base) (hpk1 : sp.pk_base ≤ 1) (r : Rat)
    (tt : ThreatType) (w : String) :
    0 ≤ calculate_success_rate st r tt w ∧
      calculate_success_rate st r tt w ≤ 1 := by
  have hrf := range_factor_bounds r sp.optimal_range_km ho
  have hwf := weather_factor_bounds st w
  unfold calculate_success_rate
  rw [h]
  exact prod3_bounds hpk0 hpk1 (le_trans (by norm_num) hrf.1) hrf.2 hwf.1
    hwf.2

/-- Antitonicity of the beyond-optimal range factor in the range. -/
lemma range_factor_beyond_antitone {o r1 r2 : Rat} (ho : 0 < o)
    (h12 : r1 ≤ r2) :
    range_factor_beyond r2 o ≤ range_factor_beyond r1 o := by
  unfold range_factor_beyond
  refine max_le_max (le_refl _) ?_
  have : (r1 - o) / (o * 2) ≤ (r2 - o) / (o * 2) :=
    (div_le_div_right (by linarith)).mpr (by linarith)
  linarith

/-- Estimator monotonicity beyond the optimal range, for a tabulated
class with a positive optimal range. -/
lemma calc_mono_of_spec (st : SystemType) (sp : SpecEntry)
    (h : SYSTEM_SPECS st = some sp) (ho : 0 < sp.optimal_range_km)
    (hpk : 0 ≤ sp.pk_base) (r1 r2 : Rat) (tt : ThreatType) (w : String)
    (h1 : sp.optimal_range_km < r1) (h12 : r1 ≤ r2) :
    calculate_success_rate st r2 tt w ≤ calculate_success_rate st r1 tt w := by
  have hr2 : r2 > sp.optimal_range_km := lt_of_lt_of_le h1 h12
  unfold calculate_success_rate
  rw [h]
  simp only [if_pos h1, if_pos hr2]
  have hb := range_factor_beyond_antitone ho h12
  have hwf := (weather_factor_bounds st w).1
  exact mul_le_mul_of_nonneg_right (mul_le_mul_of_nonneg_left hb hpk) hwf

/-- The beyond-optimal branch formula evaluated exactly at the optimal
range yields factor 1. -/
lemma range_factor_beyond_at_optimal (o : Rat) :
    range_factor_beyond o o = 1 := by
  unfold range_factor_beyond
  rw [sub_self, zero_div, sub_zero]
  exact max_eq_right (by norm_num : (6:Rat)/10 ≤ 1)

/-- The within-optimal branch (the one the code actually takes at
`range_km == optimal`) yields factor 0.85 there. -/
lemma range_factor_within_at_optimal (o : Rat) :
    range_factor_within o o = 85/100 := by
  unfold range_factor_within
  rw [sub_self, zero_div, zero_mul, add_zero]
  exact min_eq_right (by norm_num : (85:Rat)/100 ≤ 1)

/-! ### Categorisation lemmas -/

lemma insertAsc_ne_nil (key : AvailableSystem → Int) (a : AvailableSystem)
    (l : List AvailableSystem) : insertAsc key a l ≠ [] := by
  cases l with
  | nil => simp [insertAsc]
  | cons b t => unfold insertAsc; split <;> simp

lemma insertDesc_ne_nil (key : AvailableSystem → Int) (a : AvailableSystem)
    (l : List AvailableSystem) : insertDesc key a l ≠ [] := by
  cases l with
  | nil => simp [insertDesc]
  | cons b t => unfold insertDesc; split <;> simp

lemma sortAsc_eq_nil_iff (key : AvailableSystem → Int)
    (l : List AvailableSystem) : sortAsc key l = [] ↔ l = [] := by
  constructor
  · intro h
    cases l with
    | nil => rfl
    | cons a t => exact absurd h (insertAsc_ne_nil key a _)
  · rintro rfl; rfl

lemma sortDesc_eq_nil_iff (key : AvailableSystem → Int)
    (l : List AvailableSystem) : sortDesc key l = [] ↔ l = [] := by
  constructor
  · intro h
    cases l with
    | nil => rfl
    | cons a t => exact absurd h (insertDesc_ne_nil key a _)
  · rintro rfl; rfl

lemma premiumOf_ne_nil (systems : List AvailableSystem) (s : AvailableSystem)
    (hs : s ∈ systems) (hc : s.cost_per_shot ≥ 400000) :
    premiumOf systems ≠ [] := by
  intro hnil
  rw [premiumOf, sortDesc_eq_nil_iff] at hnil
  have hmem : s ∈ systems.filter (fun x => x.cost_per_shot ≥ 400000) :=
    List.mem_filter.mpr ⟨hs, by simpa using hc⟩
  rw [hnil] at hmem
  exact absurd hmem (List.not_mem_nil s)

lemma moderateOf_ne_nil (systems : List AvailableSystem) (s : AvailableSystem)
    (hs : s ∈ systems) (hc1 : 30000 ≤ s.cost_per_shot)
    (hc2 : s.cost_per_shot < 400000) : moderateOf systems ≠ [] := by
  intro hnil
  rw [moderateOf, sortDesc_eq_nil_iff] at hnil
  have hmem : s ∈ systems.filter
      (fun x => 30000 ≤ x.cost_per_shot ∧ x.cost_per_shot < 400000) :=
    List.mem_filter.mpr ⟨hs, by simp [hc1, hc2]⟩
  rw [hnil] at hmem
  exact absurd hmem (List.not_mem_nil s)

lemma economicalOf_ne_nil (systems : List AvailableSystem)
    (s : AvailableSystem) (hs : s ∈ systems)
    (hc : s.cost_per_shot < 30000) : economicalOf systems ≠ [] := by
  intro hnil
  rw [economicalOf, sortAsc_eq_nil_iff] at hnil
  have hmem : s ∈ systems.filter (fun x => x.cost_per_shot < 30000) :=
    List.mem_filter.mpr ⟨hs, by simpa using hc⟩
  rw [hnil] at hmem
  exact absurd hmem (List.not_mem_nil s)

/-- Every system's cost falls into one of the three tiers, so a nonempty
roster yields a nonempty categorisation. -/
lemma buckets_cover (systems : List AvailableSystem) (hne : systems ≠ []) :
    economicalOf systems ≠ [] ∨ moderateOf systems ≠ [] ∨
      premiumOf systems ≠ [] := by
  obtain ⟨s, t, rfl⟩ := List.exists_cons_of_ne_nil hne
  have hs : s ∈ s :: t := List.mem_cons_self s t
  rcases lt_or_ge s.cost_per_shot 30000 with h | h
  · exact Or.inl (economicalOf_ne_nil _ s hs h)
  · rcases lt_or_ge s.cost_per_shot 400000 with h2 | h2
    · exact Or.inr (Or.inl (moderateOf_ne_nil _ s hs h h2))
    · exact Or.inr (Or.inr (premiumOf_ne_nil _ s hs h2))

/-! ### Calculator totality and key lemmas -/

lemma calcP1_isOk (threat : ThreatInput) (systems : List AvailableSystem) :
    ∃ r, calcP1 threat systems = .ok r := by
  unfold calcP1
  cases premiumOf systems <;> exact ⟨_, rfl⟩

lemma calcP2_isOk (threat : ThreatInput) (systems : List AvailableSystem) :
    ∃ r, calcP2 threat systems = .ok r := by
  unfold calcP2
  cases dronesOf systems <;> cases moderateOf systems <;> exact ⟨_, rfl⟩

lemma calcP3_isOk (threat : ThreatInput) (systems : List AvailableSystem) :
    ∃ r, calcP3 threat systems = .ok r := by
  simp only [calcP3]
  split <;> exact ⟨_, rfl⟩

lemma calcP4_isOk (threat : ThreatInput) (systems : List AvailableSystem)
    (constraints : OperationalConstraints) :
    ∃ r, calcP4 threat systems constraints = .ok r := by
  simp only [calcP4]
  split <;> exact ⟨_, rfl⟩

lemma calcEw_isOk (threat : ThreatInput) (systems : List AvailableSystem) :
    ∃ r, calcEw threat systems = .ok r := by
  simp only [calcEw]
  split <;> exact ⟨_, rfl⟩

lemma calcCoord_isOk (threat : ThreatInput) (systems : List AvailableSystem)
    (constraints : OperationalConstraints) (summary : SystemSummary)
    (hne : systems ≠ []) :
    ∃ r, calcCoord threat systems constraints summary = .ok r := by
  simp only [calcCoord]
  rcases he : economicalOf systems with _ | ⟨e, et⟩
  · rcases hm : moderateOf systems with _ | ⟨m, mt⟩
    · rcases hp : premiumOf systems with _ | ⟨p, pt⟩
      · rcases buckets_cover systems hne with h | h | h <;> simp_all
      · exact ⟨_, rfl⟩
    · exact ⟨_, rfl⟩
  · exact ⟨_, rfl⟩

lemma calcParams_isOk (tid : String) (threat : ThreatInput)
    (systems : List AvailableSystem) (constraints : OperationalConstraints)
    (summary : SystemSummary) (hne : systems ≠ []) :
    ∃ r, calcParams tid threat systems constraints summary = .ok r := by
  unfold calcParams
  split_ifs
  · exact calcP1_isOk threat systems
  · exact calcP2_isOk threat systems
  · exact calcP3_isOk threat systems
  · exact calcP4_isOk threat systems constraints
  · exact calcEw_isOk threat systems
  · exact calcCoord_isOk threat systems constraints summary hne
  · exact ⟨_, rfl⟩

lemma missingKey_p1 {threat : ThreatInput} {systems : List AvailableSystem}
    {ps : Params} (h : calcP1 threat systems = .ok (some ps)) :
    missingKey "priority_1_immediate" ps = none := by
  unfold calcP1 at h
  rcases hp : premiumOf systems with _ | ⟨primary, rest⟩ <;> rw [hp] at h
  · exact absurd h (by simp)
  · simp only [Except.ok.injEq, Option.some.injEq] at h
    subst h
    rfl

lemma missingKey_p2 {threat : ThreatInput} {systems : List AvailableSystem}
    {ps : Params} (h : calcP2 threat systems = .ok (some ps)) :
    missingKey "priority_2_drone_first" ps = none := by
  unfold calcP2 at h
  rcases hd : dronesOf systems with _ | ⟨d, dt⟩ <;>
    rcases hm : moderateOf systems with _ | ⟨m, mt⟩ <;>
    rw [hd, hm] at h
  · exact absurd h (by simp)
  · exact absurd h (by simp)
  · exact absurd h (by simp)
  · simp only [Except.ok.injEq, Option.some.injEq] at h
    subst h
    rfl

lemma missingKey_p3 {threat : ThreatInput} {systems : List AvailableSystem}
    {ps : Params} (h : calcP3 threat systems = .ok (some ps)) :
    missingKey "priority_3_multi_layer" ps = none := by
  simp only [calcP3] at h
  split at h
  · simp only [Except.ok.injEq, Option.some.injEq] at h
    subst h
    rfl
  · simp only [Except.ok.injEq, Option.some.injEq] at h
    subst h
    rfl
  · exact absurd h (by simp)

lemma missingKey_p4 {threat : ThreatInput} {systems : List AvailableSystem}
    {constraints : OperationalConstraints} {ps : Params}
    (h : calcP4 threat systems constraints = .ok (some ps)) :
    missingKey "priority_4_minimal" ps = none := by
  simp only [calcP4] at h
  split at h
  · exact absurd h (by simp)
  · simp only [Except.ok.injEq, Option.some.injEq] at h
    subst h
    rfl

lemma missingKey_ew {threat : ThreatInput} {systems : List AvailableSystem}
    {ps : Params} (h : calcEw threat systems = .ok (some ps)) :
    missingKey "ew_plus_kinetic_fpv" ps = none := by
  simp only [calcEw] at h
  split at h
  · exact absurd h (by simp)
  · simp only [Except.ok.injEq, Option.some.injEq] at h
    subst h
    rfl

lemma missingKey_coord {threat : ThreatInput} {systems : List AvailableSystem}
    {constraints : OperationalConstraints} {summary : SystemSummary}
    {ps : Params}
    (h : calcCoord threat systems constraints summary = .ok (some ps)) :
    missingKey "coordination_with_brigade" ps = none := by
  simp only [calcCoord] at h
  split at h
  · exact absurd h (by simp)
  · simp only [Except.ok.injEq, Option.some.injEq] at h
    subst h
    rfl

/-- Every parameter dict the source calculator produces carries every key
its narrative template requires (`format` never raises on them). -/
lemma calcParams_missingKey {tid : String} {threat : ThreatInput}
    {systems : List AvailableSystem} {constraints : OperationalConstraints}
    {summary : SystemSummary} {ps : Params}
    (h : calcParams tid threat systems constraints summary = .ok (some ps)) :
    missingKey tid ps = none := by
  unfold calcParams at h
  split_ifs at h with h1 h2 h3 h4 h5 h6
  · subst h1; exact missingKey_p1 h
  · subst h2; exact missingKey_p2 h
  · subst h3; exact missingKey_p3 h
  · subst h4; exact missingKey_p4 h
  · subst h5; exact missingKey_ew h
  · subst h6; exact missingKey_coord h
  · exact absurd h (by simp)

/-! ### Generation-loop lemmas -/

/-- With a nonempty roster, no step of the source calculator can raise. -/
lemma stepOk_calcParams (threat : ThreatInput) (systems : List AvailableSystem)
    (constraints : OperationalConstraints) (summary : SystemSummary)
    (hne : systems ≠ []) (tid : String) :
    stepOk calcParams threat systems constraints summary tid :=
  fun _ => ⟨calcParams_isOk tid threat systems constraints summary hne,
            fun _ h => calcParams_missingKey h⟩

/-- When every step is raise-free, the loop returns a batch, and it contains
an option of a pattern exactly when that pattern is in the catalog, its
trigger fires and its calculator produces a parameter set. -/
lemma genLoop_char
    (calcFn : String → ThreatInput → List AvailableSystem →
      OperationalConstraints → SystemSummary → Except PyError (Option Params))
    (threat : ThreatInput) (systems : List AvailableSystem)
    (constraints : OperationalConstraints) (summary : SystemSummary)
    (tnow : Int) :
    ∀ l : List String,
      (∀ tid ∈ l, stepOk calcFn threat systems constraints summary tid) →
      ∃ opts, genLoop calcFn threat systems constraints summary tnow l = .ok opts ∧
        ∀ tid : String,
          (∃ o ∈ opts, o.template_id = tid) ↔
            (tid ∈ l ∧ trigger tid threat summary constraints = true ∧
             ∃ ps, calcFn tid threat systems constraints summary = .ok (some ps)) := by
  intro l
  induction l with
  | nil => intro _; exact ⟨[], rfl, by simp⟩
  | cons t rest ih =>
    intro h
    obtain ⟨opts', hok', hiff'⟩ :=
      ih (fun tid htid => h tid (List.mem_cons_of_mem _ htid))
    by_cases htr : trigger t threat summary constraints = true
    · obtain ⟨⟨r, hr⟩, hkeys⟩ := h t (List.mem_cons_self _ _) htr
      cases r with
      | none =>
        refine ⟨opts', ?_, ?_⟩
        · unfold genLoop
          rw [if_pos htr]
          simp only [hr, hok']
        · intro tid
          rw [hiff' tid]
          constructor
          · rintro ⟨hmem, htrig, ps, hps⟩
            exact ⟨List.mem_cons_of_mem _ hmem, htrig, ps, hps⟩
          · rintro ⟨hmem, htrig, ps, hps⟩
            rcases List.mem_cons.mp hmem with rfl | hmem2
            · rw [hr] at hps
              exact absurd hps (by simp)
            · exact ⟨hmem2, htrig, ps, hps⟩
      | some ps =>
        have hmk := hkeys ps hr
        refine ⟨mkOption t ps tnow :: opts', ?_, ?_⟩
        · unfold genLoop
          rw [if_pos htr]
          simp only [hr, hmk, hok']
        · intro tid
          constructor
          · rintro ⟨o, ho, rfl⟩
            rcases List.mem_cons.mp ho with rfl | ho2
            · exact ⟨List.mem_cons_self _ _, htr, ps, hr⟩
            · obtain ⟨hmem, htrig, ps2, hps2⟩ := (hiff' _).mp ⟨o, ho2, rfl⟩
              exact ⟨List.mem_cons_of_mem _ hmem, htrig, ps2, hps2⟩
          · rintro ⟨hmem, htrig, ps2, hps2⟩
            rcases List.mem_cons.mp hmem with rfl | hmem2
            · exact ⟨mkOption tid ps tnow, List.mem_cons_self _ _, rfl⟩
            · obtain ⟨o, ho2, hoid⟩ := (hiff' tid).mpr ⟨hmem2, htrig, ps2, hps2⟩
              exact ⟨o, List.mem_cons_of_mem _ ho2, hoid⟩
    · refine ⟨opts', ?_, ?_⟩
      · unfold genLoop
        rw [if_neg htr]
        exact hok'
      · intro tid
        rw [hiff' tid]
        constructor
        · rintro ⟨hmem, htrig, ps, hps⟩
          exact ⟨List.mem_cons_of_mem _ hmem, htrig, ps, hps⟩
        · rintro ⟨hmem, htrig, ps, hps⟩
          rcases List.mem_cons.mp hmem with rfl | hmem2
          · exact absurd htrig htr
          · exact ⟨hmem2, htrig, ps, hps⟩

/-- Every option in a successfully returned batch arose from some catalog
pattern whose trigger fired and whose calculator produced its parameters. -/
lemma genLoop_mem
    (calcFn : String → ThreatInput → List AvailableSystem →
      OperationalConstraints → SystemSummary → Except PyError (Option Params))
    (threat : ThreatInput) (systems : List AvailableSystem)
    (constraints : OperationalConstraints) (summary : SystemSummary)
    (tnow : Int) :
    ∀ (l : List String) (opts : List GeneratedOption),
      genLoop calcFn threat systems constraints summary tnow l = .ok opts →
      ∀ o ∈ opts, ∃ tid ∈ l, ∃ ps,
        trigger tid threat summary constraints = true ∧
        calcFn tid threat systems constraints summary = .ok (some ps) ∧
        missingKey tid ps = none ∧ o = mkOption tid ps tnow := by
  intro l
  induction l with
  | nil =>
    intro opts hok o ho
    obtain rfl : ([] : List GeneratedOption) = opts := by
      injection hok
    exact absurd ho (List.not_mem_nil o)
  | cons t rest ih =>
    intro opts hok o ho
    unfold genLoop at hok
    split at hok
    case isTrue htr =>
      split at hok
      case h_1 e he => exact absurd hok (by simp)
      case h_2 he =>
        obtain ⟨tid, htid, hfacts⟩ := ih opts hok o ho
        exact ⟨tid, List.mem_cons_of_mem _ htid, hfacts⟩
      case h_3 ps he =>
        split at hok
        case h_1 k hm => exact absurd hok (by simp)
        case h_2 hm =>
          split at hok
          case h_1 e2 he2 => exact absurd hok (by simp)
          case h_2 opts2 he2 =>
            simp only [Except.ok.injEq] at hok
            subst hok
            rcases List.mem_cons.mp ho with rfl | ho2
            · exact ⟨t, List.mem_cons_self _ _, ps, htr, he, hm, rfl⟩
            · obtain ⟨tid, htid, hfacts⟩ := ih opts2 he2 o ho2
              exact ⟨tid, List.mem_cons_of_mem _ htid, hfacts⟩
    case isFalse htr =>
      obtain ⟨tid, htid, hfacts⟩ := ih opts hok o ho
      exact ⟨tid, List.mem_cons_of_mem _ htid, hfacts⟩

/-- A parameter set that misses a key its template requires makes the whole
loop raise: the batch is aborted, no option list is returned at all. -/
lemma genLoop_error_of_missing
    (calcFn : String → ThreatInput → List AvailableSystem →
      OperationalConstraints → SystemSummary → Except PyError (Option Params))
    (threat : ThreatInput) (systems : List AvailableSystem)
    (constraints : OperationalConstraints) (summary : SystemSummary)
    (tnow : Int) :
    ∀ (l : List String) (tid : String) (ps : Params), tid ∈ l →
      trigger tid threat summary constraints = true →
      calcFn tid threat systems constraints summary = .ok (some ps) →
      missingKey tid ps ≠ none →
      ∃ e, genLoop calcFn threat systems constraints summary tnow l = .error e := by
  intro l
  induction l with
  | nil => intro tid ps hmem; exact absurd hmem (List.not_mem_nil tid)
  | cons t rest ih =>
    intro tid ps hmem htrig hcalc hmiss
    rcases List.mem_cons.mp hmem with rfl | hmem2
    · obtain ⟨k, hk⟩ := Option.ne_none_iff_exists'.mp hmiss
      refine ⟨.keyError k, ?_⟩
      unfold genLoop
      rw [if_pos htrig]
      simp only [hcalc, hk]
    · by_cases htr : trigger t threat summary constraints = true
      · cases hc : calcFn t threat systems constraints summary with
        | error e =>
          refine ⟨e, ?_⟩
          unfold genLoop
          rw [if_pos htr]
          simp only [hc]
        | ok r =>
          cases r with
          | none =>
            obtain ⟨e, he⟩ := ih tid ps hmem2 htrig hcalc hmiss
            refine ⟨e, ?_⟩
            unfold genLoop
            rw [if_pos htr]
            simp only [hc, he]
          | some ps2 =>
            cases hm : missingKey t ps2 with
            | some k =>
              refine ⟨.keyError k, ?_⟩
              unfold genLoop
              rw [if_pos htr]
              simp only [hc, hm]
            | none =>
              obtain ⟨e, he⟩ := ih tid ps hmem2 htrig hcalc hmiss
              refine ⟨e, ?_⟩
              unfold genLoop
              rw [if_pos htr]
              simp only [hc, hm, he]
      · obtain ⟨e, he⟩ := ih tid ps hmem2 htrig hcalc hmiss
        refine ⟨e, ?_⟩
        unfold genLoop
        rw [if_neg htr]
        exact he

/-- Constructor disequality, packaged for `simp`. -/
lemma mobile_ne_drone_eq_false :
    (SystemType.MOBILE_GROUP = SystemType.INTERCEPTOR_DRONE) = False :=
  eq_false (by decide)

/-- Constructor disequality, packaged for `simp`. -/
lemma mobile_ne_heli_eq_false :
    (SystemType.MOBILE_GROUP = SystemType.HELICOPTER) = False :=
  eq_false (by decide)

/-- Unfolding `find?` over the option list: the found option is a member
and carries the searched template id. -/
lemma find?_template : ∀ (l : List GeneratedOption) (tid : String)
    (o : GeneratedOption),
    l.find? (fun x => x.template_id == tid) = some o →
    o ∈ l ∧ o.template_id = tid := by
  intro l
  induction l with
  | nil => intro tid o h; exact absurd h (by simp)
  | cons a t ih =>
    intro tid o h
    cases hpa : (a.template_id == tid) with
    | true =>
      simp only [List.find?_cons, hpa, Option.some.injEq] at h
      subst h
      exact ⟨List.mem_cons_self _ _, beq_iff_eq.mp hpa⟩
    | false =>
      simp only [List.find?_cons, hpa] at h
      obtain ⟨hmem, hid⟩ := ih tid o h
      exact ⟨List.mem_cons_of_mem _ hmem, hid⟩

/-- Boolean bridge for batch membership. -/
lemma hasOpt_ok_iff (opts : List GeneratedOption) (tid : String) :
    hasOpt (.ok opts) tid = true ↔ ∃ o ∈ opts, o.template_id = tid := by
  simp [hasOpt, List.any_eq_true, beq_iff_eq]

/-! ### Dead triggers: member names versus display values -/

lemma systemTypeValue_ne_drone (st : SystemType) :
    systemTypeValue st ≠ "INTERCEPTOR_DRONE" := by
  cases st <;> decide

lemma systemTypeValue_ne_bukovel (st : SystemType) :
    systemTypeValue st ≠ "BUKOVEL" := by
  cases st <;> decide

lemma contains_drone_false (l : List AvailableSystem) :
    (l.map (fun s => systemTypeValue s.system_type)).contains
      "INTERCEPTOR_DRONE" = false := by
  induction l with
  | nil => rfl
  | cons a t ih =>
    simp only [List.map_cons, List.contains_cons, ih, Bool.or_false]
    exact beq_eq_false_iff_ne.mpr (Ne.symm (systemTypeValue_ne_drone _))

lemma contains_bukovel_false (l : List AvailableSystem) :
    (l.map (fun s => systemTypeValue s.system_type)).contains
      "BUKOVEL" = false := by
  induction l with
  | nil => rfl
  | cons a t ih =>
    simp only [List.map_cons, List.contains_cons, ih, Bool.or_false]
    exact beq_eq_false_iff_ne.mpr (Ne.symm (systemTypeValue_ne_bukovel _))

/-- The `priority_2_drone_first` trigger tests the string
`"INTERCEPTOR_DRONE"` against the `.value` display strings of the systems, none of
which is that string, so it can never fire. -/
lemma trigger_p2_false (t : ThreatInput) (s : SystemSummary)
    (c : OperationalConstraints) :
    trigger "priority_2_drone_first" t s c = false := by
  unfold trigger
  rw [if_neg (by decide), if_pos rfl]
  apply decide_eq_false
  rintro ⟨-, -, hc⟩
  rw [contains_drone_false] at hc
  exact Bool.false_ne_true hc

/-- The `ew_plus_kinetic_fpv` trigger tests the string `"BUKOVEL"` against
the `.value` display strings of the systems, none of which is that string, so it
can never fire. -/
lemma trigger_ew_false (t : ThreatInput) (s : SystemSummary)
    (c : OperationalConstraints) :
    trigger "ew_plus_kinetic_fpv" t s c = false := by
  unfold trigger
  rw [if_neg (by decide), if_neg (by decide), if_neg (by decide),
    if_neg (by decide), if_pos rfl]
  apply decide_eq_false
  rintro ⟨hc, -⟩
  rw [contains_bukovel_false] at hc
  exact Bool.false_ne_true hc

/-- The code's accumulated probability coincides with the claim's
independent-OR of the layers present. -/
lemma p4_total_success_eq_spec (threat : ThreatInput)
    (systems : List AvailableSystem) :
    p4_total_success threat systems = p4_combined_spec threat systems := by
  unfold p4_total_success p4_combined_spec
  rcases hm : mobileGroupsOf systems with _ | ⟨m, mt⟩ <;>
    rcases hd : dronesOf systems with _ | ⟨d, dt⟩ <;>
    simp <;> ring

/-- Only the timestamp-bearing `option_id` of the loop's output can depend
on the wall-clock argument; the observable fields cannot. -/
lemma genLoop_obs
    (calcFn : String → ThreatInput → List AvailableSystem →
      OperationalConstraints → SystemSummary → Except PyError (Option Params))
    (threat : ThreatInput) (systems : List AvailableSystem)
    (constraints : OperationalConstraints) (summary : SystemSummary)
    (t1 t2 : Int) :
    ∀ l : List String,
      obsFields (genLoop calcFn threat systems constraints summary t1 l) =
      obsFields (genLoop calcFn threat systems constraints summary t2 l) := by
  intro l
  induction l with
  | nil => rfl
  | cons t rest ih =>
    unfold genLoop
    by_cases htr : trigger t threat summary constraints = true
    · rw [if_pos htr, if_pos htr]
      cases hc : calcFn t threat systems constraints summary with
      | error e => simp only [hc]
      | ok r =>
        cases r with
        | none => simp only [hc]; exact ih
        | some ps =>
          cases hm : missingKey t ps with
          | some k => simp only [hc, hm]
          | none =>
            simp only [hc, hm]
            cases h1 : genLoop calcFn threat systems constraints summary t1 rest with
            | error e1 =>
              cases h2 : genLoop calcFn threat systems constraints summary t2 rest with
              | error e2 =>
                have heq := ih
                rw [h1, h2] at heq
                simp only [obsFields, Except.map, Except.error.injEq] at heq
                simp only [obsFields, Except.map, Except.error.injEq]
                exact heq
              | ok l2 =>
                have heq := ih
                rw [h1, h2] at heq
                simp [obsFields, Except.map] at heq
            | ok l1 =>
              cases h2 : genLoop calcFn threat systems constraints summary t2 rest with
              | error e2 =>
                have heq := ih
                rw [h1, h2] at heq
                simp [obsFields, Except.map] at heq
              | ok l2 =>
                have heq := ih
                rw [h1, h2] at heq
                simp only [obsFields, Except.map, Except.ok.injEq] at heq
                simp only [obsFields, Except.map, Except.ok.injEq,
                  List.map_cons, List.cons.injEq]
                exact ⟨rfl, heq⟩
    · rw [if_neg htr, if_neg htr]
      exact ih

/-- C10.  Given identical threat, roster, and constraints, two invocations
of option generation (modelled with explicit wall-clock arguments, the only
impure input of `generate_options`) produce batches of equal length whose
corresponding options have pairwise identical narrative text, cost, and
success-probability fields: option generation is deterministic, with no
hidden randomness beyond the timestamp inside `option_id`. -/
theorem C10_generation_deterministic (threat : ThreatInput)
    (systems : List AvailableSystem) (constraints : OperationalConstraints)
    (t1 t2 : Int) :
    obsFields (generate_options threat systems constraints t1) =
    obsFields (generate_options threat systems constraints t2) :=
  genLoop_obs calcParams threat systems constraints (makeSummary systems)
    t1 t2 templateOrder

/-- C1.  For every asset class, engagement range, threat class and weather
label the Success-Rate Estimator returns a value in `[0, 1]`, and for any
asset class with no entry in `SYSTEM_SPECS` it returns exactly `0.75`
regardless of the other arguments. -/
theorem C1_estimator_bounds_and_default (st : SystemType) (r : Rat)
    (tt : ThreatType) (w : String) :
    (0 ≤ calculate_success_rate st r tt w ∧
      calculate_success_rate st r tt w ≤ 1) ∧
    (SYSTEM_SPECS st = none → calculate_success_rate st r tt w = 3/4) := by
  constructor
  · cases st
    case ZU_23 => exact ⟨by norm_num [calculate_success_rate, SYSTEM_SPECS],
      by norm_num [calculate_success_rate, SYSTEM_SPECS]⟩
    case BUKOVEL => exact ⟨by norm_num [calculate_success_rate, SYSTEM_SPECS],
      by norm_num [calculate_success_rate, SYSTEM_SPECS]⟩
    all_goals
      exact calc_bounds_of_spec _ _ (by rfl) (by norm_num) (by norm_num)
        (by norm_num) r tt w
  · intro h
    cases st <;> first
      | rfl
      | exact absurd h (by simp [SYSTEM_SPECS])

/-- Witness for C1 at a concrete untabulated class and concrete arguments. -/
theorem C1_witness :
    0 ≤ calculate_success_rate .ZU_23 12 .SHAHED_136 "Nominal" ∧
    calculate_success_rate .ZU_23 12 .SHAHED_136 "Nominal" = 3/4 :=
  ⟨(C1_estimator_bounds_and_default .ZU_23 12 .SHAHED_136 "Nominal").1.1,
   (C1_estimator_bounds_and_default .ZU_23 12 .SHAHED_136 "Nominal").2 rfl⟩

/-- C2 is false as stated: for IRIS-T (optimal range 25 km) the estimate at
exactly the optimal range (within-branch factor 0.85) is strictly below the
estimate at 30 km (beyond-branch factor 0.9), and the two branch formulas
disagree at `range_km = optimal`. -/
theorem C2_counterexample :
    calculate_success_rate .IRIS_T 25 .SHAHED_136 "Nominal" <
      calculate_success_rate .IRIS_T 30 .SHAHED_136 "Nominal" ∧
    range_factor_beyond 25 25 ≠ range_factor_within 25 25 := by
  constructor
  · norm_num [calculate_success_rate, SYSTEM_SPECS, range_factor_beyond,
      range_factor_within, weather_factor_nominal, min_def, max_def]
  · norm_num [range_factor_beyond, range_factor_within, min_def, max_def]

/-- C2 (amended).  For a fixed tabulated asset class, threat class and
weather label, the estimator is non-increasing in range over ranges strictly
greater than the optimal range; but the two range-factor branches do not
agree at `range_km = optimal`: the beyond-optimal formula yields factor 1
there while the within-optimal branch the code actually takes yields 0.85,
so the value at exactly the optimal range is not the maximum of the
beyond-optimal branch. -/
theorem C2_beyond_monotone_and_boundary (st : SystemType) (sp : SpecEntry)
    (r1 r2 : Rat) (tt : ThreatType) (w : String)
    (h : SYSTEM_SPECS st = some sp) (h1 : sp.optimal_range_km < r1)
    (h12 : r1 ≤ r2) :
    calculate_success_rate st r2 tt w ≤ calculate_success_rate st r1 tt w ∧
    range_factor_beyond sp.optimal_range_km sp.optimal_range_km = 1 ∧
    range_factor_within sp.optimal_range_km sp.optimal_range_km = 85/100 := by
  refine ⟨?_, range_factor_beyond_at_optimal _, range_factor_within_at_optimal _⟩
  cases st
  all_goals first
    | exact Option.noConfusion h
    | (obtain rfl := Option.some.inj h
       exact calc_mono_of_spec _ _ (by rfl) (by norm_num) (by norm_num)
         r1 r2 tt w h1 h12)

/-- Witness for C2 (amended) at IRIS-T with ranges 30 ≤ 40 beyond the
optimal 25. -/
theorem C2_witness :
    calculate_success_rate .IRIS_T 40 .SHAHED_136 "Nominal" ≤
      calculate_success_rate .IRIS_T 30 .SHAHED_136 "Nominal" ∧
    range_factor_beyond 25 25 = 1 ∧ range_factor_within 25 25 = 85/100 :=
  C2_beyond_monotone_and_boundary .IRIS_T ⟨500000, 40, 93/100, 25⟩ 30 40
    .SHAHED_136 "Nominal" rfl (by norm_num) (by norm_num)

/-- C4.  The staged-economical-then-premium (drone-first) trigger compares
the member name `"INTERCEPTOR_DRONE"` against the roster display values
and therefore never fires — in particular not in a scenario with a
high-priority threat beyond 15 km and a roster holding an interceptor drone
and a moderate-tier asset, where the claim requires the pattern to produce
a combined option. -/
theorem C4_drone_first_dead_trigger :
    (∀ (t : ThreatInput) (s : SystemSummary) (c : OperationalConstraints),
      trigger "priority_2_drone_first" t s c = false) ∧
    c4Threat.target_priority = TargetPriority.HIGH ∧ c4Threat.range_km > 15 ∧
    c4Systems.any (fun s => s.system_type == SystemType.INTERCEPTOR_DRONE) = true ∧
    moderateOf c4Systems ≠ [] ∧
    hasOpt (generate_options c4Threat c4Systems c4Cons 0)
      "priority_2_drone_first" = false := by
  refine ⟨trigger_p2_false, ?_⟩
  decide

/-- C5.  The electronic-countermeasure-plus-kinetic trigger compares the
member name `"BUKOVEL"` against the roster display values and therefore
never fires — in particular not for an FPV threat with a Bukovel
electronic-warfare asset and a kinetic asset on the roster, where the claim
requires the pattern to produce a combined option. -/
theorem C5_ew_kinetic_dead_trigger :
    (∀ (t : ThreatInput) (s : SystemSummary) (c : OperationalConstraints),
      trigger "ew_plus_kinetic_fpv" t s c = false) ∧
    c5Threat.threat_type = ThreatType.FPV ∧
    c5Systems.any (fun s => s.system_type == SystemType.BUKOVEL) = true ∧
    moderateOf c5Systems ≠ [] ∧
    hasOpt (generate_options c5Threat c5Systems c5Cons 0)
      "ew_plus_kinetic_fpv" = false := by
  refine ⟨trigger_ew_false, ?_⟩
  decide

/-- C7.  Constructing a Threat with zero closing speed while time-to-impact
must be derived propagates the division fault (`ZeroDivisionError` from
`range_km / speed_kmh`): there is no guard and no dedicated
invalid-threat-kinematics signal in `ThreatInput.__post_init__`. -/
theorem C7_zero_speed_division_fault :
    mkThreatInput .SHAHED_136 1 25 45 1200 0 "Power plant" .CRITICAL none =
      .error .zeroDivisionError := by
  rfl

/-- With a nonempty roster the coordination calculator always returns a
parameter set (never declines, never raises). -/
lemma calcCoord_some (threat : ThreatInput) (systems : List AvailableSystem)
    (constraints : OperationalConstraints) (summary : SystemSummary)
    (hne : systems ≠ []) :
    ∃ ps, calcCoord threat systems constraints summary = .ok (some ps) := by
  simp only [calcCoord]
  rcases he : economicalOf systems with _ | ⟨e, et⟩
  · rcases hm : moderateOf systems with _ | ⟨m, mt⟩
    · rcases hp : premiumOf systems with _ | ⟨p, pt⟩
      · rcases buckets_cover systems hne with h | h | h <;> simp_all
      · exact ⟨_, rfl⟩
    · exact ⟨_, rfl⟩
  · exact ⟨_, rfl⟩

/-- When the premium categorisation is nonempty the immediate-premium
calculator produces a parameter set. -/
lemma calcP1_some (threat : ThreatInput) {systems : List AvailableSystem}
    {primary : AvailableSystem} {rest : List AvailableSystem}
    (hp : premiumOf systems = primary :: rest) :
    ∃ ps, calcP1 threat systems = .ok (some ps) := by
  unfold calcP1
  rw [hp]
  exact ⟨_, rfl⟩

/-- C3.  For a threat in the critical priority tier, the immediate-premium
option is produced iff the roster holds a premium-tier asset
(`cost_per_shot ≥ 400 000`); when produced it allocates
`min(threat_count, rounds)` units of the selected premium asset (the first
highest-cost one) and reports cost equal to that allocation times the
asset's cost per shot. -/
theorem C3_immediate_premium (threat : ThreatInput)
    (systems : List AvailableSystem) (constraints : OperationalConstraints)
    (tnow : Int) (hc : threat.target_priority = TargetPriority.CRITICAL) :
    (hasOpt (generate_options threat systems constraints tnow)
        "priority_1_immediate" = true ↔ premiumOf systems ≠ []) ∧
    (∀ primary rest, premiumOf systems = primary :: rest →
      ∀ o, getOpt (generate_options threat systems constraints tnow)
          "priority_1_immediate" = some o →
        o.estimated_cost =
          primary.cost_per_shot * min threat.count primary.missiles_available ∧
        paramLookup o.parameters "missiles_allocated" =
          some (.i (min threat.count primary.missiles_available))) := by
  constructor
  · constructor
    · intro h
      cases hr : generate_options threat systems constraints tnow with
      | error e =>
        rw [hr] at h
        exact absurd h (by simp [hasOpt])
      | ok opts =>
        rw [hr] at h
        obtain ⟨o, ho, hoid⟩ := (hasOpt_ok_iff opts _).mp h
        obtain ⟨tid, htid, ps, htrig, hcalc, hmk, rfl⟩ :=
          genLoop_mem calcParams threat systems constraints
            (makeSummary systems) tnow templateOrder opts hr o ho
        have htid2 : tid = "priority_1_immediate" := hoid
        subst htid2
        have hcalc1 : calcP1 threat systems = .ok (some ps) := hcalc
        unfold calcP1 at hcalc1
        rcases hp : premiumOf systems with _ | ⟨primary, rest⟩
        · rw [hp] at hcalc1
          exact absurd hcalc1 (by simp)
        · simp [hp]
    · intro hne
      have hsys : systems ≠ [] := by
        intro h0
        subst h0
        exact hne rfl
      obtain ⟨opts, hok, hiff⟩ :=
        genLoop_char calcParams threat systems constraints
          (makeSummary systems) tnow templateOrder
          (fun tid _ => stepOk_calcParams threat systems constraints
            (makeSummary systems) hsys tid)
      have hgen : generate_options threat systems constraints tnow = .ok opts := hok
      rw [hgen, hasOpt_ok_iff]
      apply (hiff "priority_1_immediate").mpr
      refine ⟨by decide, ?_, ?_⟩
      · show decide (threat.target_priority = TargetPriority.CRITICAL) = true
        exact decide_eq_true hc
      · rcases hp : premiumOf systems with _ | ⟨primary, rest⟩
        · exact absurd hp hne
        · exact calcP1_some threat hp
  · intro primary rest hp o hgo
    cases hr : generate_options threat systems constraints tnow with
    | error e =>
      rw [hr] at hgo
      exact absurd hgo (by simp [getOpt])
    | ok opts =>
      rw [hr] at hgo
      simp only [getOpt] at hgo
      obtain ⟨ho, hoid⟩ := find?_template opts "priority_1_immediate" o hgo
      obtain ⟨tid, htid, ps, htrig, hcalc, hmk, rfl⟩ :=
        genLoop_mem calcParams threat systems constraints
          (makeSummary systems) tnow templateOrder opts hr o ho
      have htid2 : tid = "priority_1_immediate" := hoid
      subst htid2
      have hcalc1 : calcP1 threat systems = .ok (some ps) := hcalc
      unfold calcP1 at hcalc1
      rw [hp] at hcalc1
      simp only [Except.ok.injEq, Option.some.injEq] at hcalc1
      subst hcalc1
      exact ⟨rfl, rfl⟩

/-- Witness for C3 on the source's Odesa validation scenario: the critical
threat and the IRIS-T premium roster entry make the option appear. -/
theorem C3_witness :
    hasOpt (generate_options odesaThreat odesaSystems odesaCons 0)
      "priority_1_immediate" = true :=
  ((C3_immediate_premium odesaThreat odesaSystems odesaCons 0 rfl).1).mpr
    (by decide)

/-- C6 (amended).  Provided the roster is nonempty, the coordination option
is produced iff total rounds are strictly below twice the threat count or
more than one follow-on wave is expected; at the boundary (total rounds
exactly twice the count, at most one wave) it is absent.  (With an empty
roster the source instead raises `IndexError`; see the counterexample.) -/
theorem C6_coordination_iff (threat : ThreatInput)
    (systems : List AvailableSystem) (constraints : OperationalConstraints)
    (tnow : Int) (hne : systems ≠ []) :
    (hasOpt (generate_options threat systems constraints tnow)
        "coordination_with_brigade" = true ↔
      ((makeSummary systems).total_missiles < threat.count * 2 ∨
        constraints.expected_follow_on_waves > 1)) ∧
    ((makeSummary systems).total_missiles = threat.count * 2 →
      constraints.expected_follow_on_waves ≤ 1 →
      hasOpt (generate_options threat systems constraints tnow)
        "coordination_with_brigade" = false) := by
  have hmain : hasOpt (generate_options threat systems constraints tnow)
      "coordination_with_brigade" = true ↔
      ((makeSummary systems).total_missiles < threat.count * 2 ∨
        constraints.expected_follow_on_waves > 1) := by
    constructor
    · intro h
      cases hr : generate_options threat systems constraints tnow with
      | error e =>
        rw [hr] at h
        exact absurd h (by simp [hasOpt])
      | ok opts =>
        rw [hr] at h
        obtain ⟨o, ho, hoid⟩ := (hasOpt_ok_iff opts _).mp h
        obtain ⟨tid, htid, ps, htrig, hcalc, hmk, rfl⟩ :=
          genLoop_mem calcParams threat systems constraints
            (makeSummary systems) tnow templateOrder opts hr o ho
        have htid2 : tid = "coordination_with_brigade" := hoid
        subst htid2
        have htrig2 : decide ((makeSummary systems).total_missiles <
            threat.count * 2 ∨ constraints.expected_follow_on_waves > 1) =
            true := htrig
        exact of_decide_eq_true htrig2
    · intro hcond
      obtain ⟨opts, hok, hiff⟩ :=
        genLoop_char calcParams threat systems constraints
          (makeSummary systems) tnow templateOrder
          (fun tid _ => stepOk_calcParams threat systems constraints
            (makeSummary systems) hne tid)
      have hgen : generate_options threat systems constraints tnow = .ok opts := hok
      rw [hgen, hasOpt_ok_iff]
      apply (hiff "coordination_with_brigade").mpr
      refine ⟨by decide, ?_, ?_⟩
      · show decide ((makeSummary systems).total_missiles < threat.count * 2 ∨
            constraints.expected_follow_on_waves > 1) = true
        exact decide_eq_true hcond
      · exact calcCoord_some threat systems constraints (makeSummary systems) hne
  refine ⟨hmain, fun heq hle => ?_⟩
  cases h2 : hasOpt (generate_options threat systems constraints tnow)
      "coordination_with_brigade" with
  | false => rfl
  | true =>
    rcases hmain.mp h2 with h | h
    · rw [heq] at h
      exact absurd h (lt_irrefl _)
    · exact absurd h (not_lt.mpr hle)

/-- Witness for C6 (amended): five threats against six total rounds
(6 < 10) make the coordination option appear. -/
theorem C6_witness :
    hasOpt (generate_options c6wThreat c6wSystems c6Cons 0)
      "coordination_with_brigade" = true :=
  ((C6_coordination_iff c6wThreat c6wSystems c6Cons 0 (by decide)).1).mpr
    (Or.inl (by decide))

/-- C6 is false as stated for an empty roster: the trigger condition holds
(0 rounds < 2 × 1 threat), but instead of producing the coordination option
the batch raises `IndexError` from `premium[0]`, so the option is absent. -/
theorem C6_counterexample :
    ((makeSummary ([] : List AvailableSystem)).total_missiles <
        c6Threat.count * 2 ∨ c6Cons.expected_follow_on_waves > 1) ∧
    generate_options c6Threat [] c6Cons 0 = .error .indexError ∧
    hasOpt (generate_options c6Threat [] c6Cons 0)
      "coordination_with_brigade" = false := by
  refine ⟨Or.inl (by decide), by rfl, by rfl⟩

/-- C8 (amended).  If any pattern's calculator returns a parameter set
missing a field its narrative template requires, the whole option-generation
batch is aborted with that error: no option of any other qualifying pattern
is returned. -/
theorem C8_missing_field_aborts_batch
    (calcFn : String → ThreatInput → List AvailableSystem →
      OperationalConstraints → SystemSummary → Except PyError (Option Params))
    (threat : ThreatInput) (systems : List AvailableSystem)
    (constraints : OperationalConstraints) (tnow : Int) (tid : String)
    (ps : Params) (hmem : tid ∈ templateOrder)
    (htrig : trigger tid threat (makeSummary systems) constraints = true)
    (hcalc : calcFn tid threat systems constraints (makeSummary systems) =
      .ok (some ps))
    (hmiss : missingKey tid ps ≠ none) :
    ∃ e, generateOptionsWith calcFn threat systems constraints tnow =
      .error e :=
  genLoop_error_of_missing calcFn threat systems constraints
    (makeSummary systems) tnow templateOrder tid ps hmem htrig hcalc hmiss

/-- Witness for C8 (amended): the faulty-coordination calculator aborts the
whole batch, so even the qualifying immediate-premium option is absent. -/
theorem C8_witness :
    hasOpt (generateOptionsWith faultyCalc c8Threat c8Systems c8Cons 0)
      "priority_1_immediate" = false := by
  obtain ⟨e, he⟩ := C8_missing_field_aborts_batch faultyCalc c8Threat
    c8Systems c8Cons 0 "coordination_with_brigade" [] (by decide) (by decide)
    rfl (by decide)
  rw [he]
  rfl

/-- C8 is false as stated: with the faulty-coordination calculator the
immediate-premium pattern qualifies and its calculator returns a complete
parameter set, yet the batch is aborted by the coordination pattern's
missing-field `KeyError` and no option at all is produced. -/
theorem C8_counterexample :
    trigger "priority_1_immediate" c8Threat (makeSummary c8Systems) c8Cons =
      true ∧
    faultyCalc "priority_1_immediate" c8Threat c8Systems c8Cons
      (makeSummary c8Systems) = .ok (some c8ps) ∧
    missingKey "priority_1_immediate" c8ps = none ∧
    trigger "coordination_with_brigade" c8Threat (makeSummary c8Systems)
      c8Cons = true ∧
    generateOptionsWith faultyCalc c8Threat c8Systems c8Cons 0 =
      .error (.keyError "my_allocation") := by
  refine ⟨by decide, rfl, by decide, by decide, by rfl⟩

/-- C9 (amended).  Whenever the minimal-economical pattern produces a
parameter set, its acceptable-losses figure is
`max(1, trunc(threat_count × (1 - combined)))` with truncation toward zero
(Python `int()`), not rounding to nearest, where `combined` is the
independent-OR of the mobile-ground and interceptor-drone layers present. -/
theorem C9_losses_truncation (threat : ThreatInput)
    (systems : List AvailableSystem) (constraints : OperationalConstraints)
    (ps : Params) (h : calcP4 threat systems constraints = .ok (some ps)) :
    paramLookup ps "acceptable_losses" =
      some (.i (max 1 (pyIntTrunc ((threat.count : Rat) *
        (1 - p4_combined_spec threat systems))))) := by
  simp only [calcP4] at h
  split at h
  · exact absurd h (by simp)
  · simp only [Except.ok.injEq, Option.some.injEq] at h
    subst h
    rw [← p4_total_success_eq_spec]
    rfl

/-- Witness for C9 (amended) on the mobile-group scenario. -/
theorem C9_witness :
    paramLookup c9ps "acceptable_losses" =
      some (.i (max 1 (pyIntTrunc ((c9Threat.count : Rat) *
        (1 - p4_combined_spec c9Threat c9Systems))))) :=
  C9_losses_truncation c9Threat c9Systems c9Cons c9ps (by rfl)

/-- C9 is false as stated: with five threats and a lone mobile group
(success 0.2975), `threat_count × (1 - combined) = 3.5125`; the code reports
`max(1, int(3.5125)) = 3` while the claim's round-to-nearest formula gives
`max(1, round(3.5125)) = 4`. -/
theorem C9_counterexample :
    paramLookup c9ps "acceptable_losses" = some (.i 3) ∧
    acceptable_losses_claim c9Threat.count
      (p4_combined_spec c9Threat c9Systems) = 4 ∧
    hasOpt (generate_options c9Threat c9Systems c9Cons 0)
      "priority_4_minimal" = true := by
  refine ⟨?_, ?_, by decide⟩
  · show some (PValue.i (max 1 (pyIntTrunc ((c9Threat.count : Rat) *
      (1 - p4_total_success c9Threat c9Systems))))) = some (PValue.i 3)
    norm_num [p4_total_success, mobileGroupsOf, dronesOf, economicalOf,
      sortAsc, insertAsc, c9Systems, c9Threat, calculate_success_rate,
      SYSTEM_SPECS, range_factor_within, range_factor_beyond,
      weather_factor_nominal, pyIntTrunc, min_def, max_def,
      mobile_ne_drone_eq_false, mobile_ne_heli_eq_false,
      List.filter_cons, List.filter_nil, List.foldr_cons, List.foldr_nil]
  · norm_num [acceptable_losses_claim, roundNearest, ratFloor,
      p4_combined_spec, mobileGroupsOf, dronesOf, economicalOf, sortAsc,
      insertAsc, c9Systems, c9Threat, calculate_success_rate, SYSTEM_SPECS,
      range_factor_within, range_factor_beyond, weather_factor_nominal,
      min_def, max_def,
      mobile_ne_drone_eq_false, mobile_ne_heli_eq_false,
      List.filter_cons, List.filter_nil, List.foldr_cons, List.foldr_nil]

end Doctrine
